import Mathlib

/-!
# Verification of the ProdSprints release orchestration core

This development embeds, in Lean 4, the parts of the ProdSprints AI
repository that its specification (`spec.md`) describes: the policy gate
evaluator, the rollout controller state machine, the health monitor
classifier, the rollback engine, the pipeline scheduler, and the release
registry, together with the two fragments of frontend code that compute
gating and rollback-request values (`failedPolicies` / `canApprove` on the
plan preview page and the rollback reason defaulting in `handleRollback`).

The repository ships only the frontend, documentation and the SQL schema;
the backend workers that implement the orchestration core are not part of
the source tree.  Definitions for those components are therefore modelled
from the specification text (each such definition carries a doc comment
starting with `Modelled from the spec:`), while the frontend fragments are
embedded directly from the TypeScript source.
-/

/- ## Frontend plan preview page (embedded from source)

The plan preview page computes the set of failing policy gates and the
approval guard from `blueprint.policies`:

`const failedPolicies = blueprint.policies.filter((p) => !p.enabled && p.name !== 'test_coverage');`
`const canApprove = failedPolicies.length === 0;`
-/

/-- A policy entry as rendered by the plan preview page: a name and the
`enabled` flag (true when the gate passed). -/
structure PlanPolicy where
  name : String
  enabled : Bool
deriving DecidableEq, Repr

/-- Embedded from the source (PlanPreviewPage): the list of policies that
count as failed for the approval guard.  Note the filter drops the
`test_coverage` policy regardless of its `enabled` flag. -/
def failedPolicies (policies : List PlanPolicy) : List PlanPolicy :=
  policies.filter (fun p => !p.enabled && p.name != "test_coverage")

/-- Embedded from the source (PlanPreviewPage): approval is allowed exactly
when the failed-policy list is empty. -/
def canApprove (policies : List PlanPolicy) : Bool :=
  (failedPolicies policies).length == 0

/- ## Frontend release console rollback request (embedded from source)

`handleRollback` posts `{ release_id, reason: rollbackReason || 'manual' }`;
for a string, JavaScript `||` falls through exactly on the empty string. -/

/-- Embedded from the source (ReleasePage.handleRollback): the `reason`
field of the rollback request body, `rollbackReason || 'manual'`. -/
def rollbackRequestReason (rollbackReason : String) : String :=
  if rollbackReason == "" then "manual" else rollbackReason

/- ## Policy Gate Evaluator -/

/-- Status of a single policy check in a readiness report. -/
inductive CheckStatus
  | PASSED
  | WAIVED
  | BLOCKED
deriving DecidableEq, Repr

/-- A waiver: a reason and an expiry instant (seconds). -/
structure Waiver where
  reason : String
  expiry : Nat
deriving DecidableEq, Repr

/-- Direction of a policy threshold: a metric must be at least the
threshold (coverage) or at most the threshold (vulnerability counts,
latency, error rate). -/
inductive ThresholdKind
  | atLeast
  | atMost
deriving DecidableEq, Repr

/-- Modelled from the spec: a configured `PolicyCheck` of the Policy Gate
Evaluator (section 4.1), whose implementation is not in the source tree.
A named rule with a threshold, a waivability flag and an optional waiver. -/
structure PolicyCheck where
  name : String
  kind : ThresholdKind
  threshold : Nat
  waivable : Bool
  waiver : Option Waiver
deriving DecidableEq, Repr

/-- Modelled from the spec: a raw `CheckResult` supplied to `Evaluate`,
one measured metric value per check name. -/
structure CheckResult where
  name : String
  value : Nat
deriving DecidableEq, Repr

/-- Modelled from the spec: pass/fail of one check against its threshold
(for instance coverage at least 80, high vulnerabilities at most 2). -/
def checkPasses (c : PolicyCheck) (v : Nat) : Bool :=
  match c.kind with
  | .atLeast => decide (c.threshold ≤ v)
  | .atMost => decide (v ≤ c.threshold)

/-- Modelled from the spec: a waiver is active while unexpired. -/
def waiverActive (w : Option Waiver) (now : Nat) : Bool :=
  match w with
  | none => false
  | some w => decide (now < w.expiry)

/-- Modelled from the spec: look up the supplied metric for a check name;
an absent measurement reads as zero. -/
def resultValue (results : List CheckResult) (n : String) : Nat :=
  match results.find? (fun r => r.name == n) with
  | some r => r.value
  | none => 0

/-- Modelled from the spec: status of one configured check given the
supplied results. Failing with an active non-expired waiver is WAIVED,
failing without one is BLOCKED. -/
def evalCheck (c : PolicyCheck) (results : List CheckResult) (now : Nat) : CheckStatus :=
  if checkPasses c (resultValue results c.name) then .PASSED
  else if waiverActive c.waiver now then .WAIVED
  else .BLOCKED

/-- A readiness report: per-check statuses, blocker names, and the overall
verdict. -/
structure ReadinessReport where
  checks : List (String × CheckStatus)
  blockers : List String
  ready : Bool
deriving DecidableEq, Repr

/-- Modelled from the spec: `Evaluate(projectID, checkResults) →
ReadinessReport` of the Policy Gate Evaluator (section 4.1), absent from
the source tree.  The blockers are the names of BLOCKED checks and the
overall verdict holds when that list is empty. -/
def Evaluate (config : List PolicyCheck) (results : List CheckResult) (now : Nat) :
    ReadinessReport :=
  let statuses := config.map (fun c => (c.name, evalCheck c results now))
  let blockers := (statuses.filter (fun p => p.2 == CheckStatus.BLOCKED)).map (fun p => p.1)
  ⟨statuses, blockers, blockers.isEmpty⟩

/- ## Waive operation on readiness checks -/

/-- Outcome of the `Waive` operation. -/
inductive WaiveOutcome
  | ok
  | notWaivable
  | alreadyPassing
  | notFound
deriving DecidableEq, Repr

/-- A readiness check as held by the gate state: name, waivability flag,
current status, and the recorded waiver if any. -/
structure GateCheck where
  name : String
  waivable : Bool
  status : CheckStatus
  waiver : Option Waiver
deriving DecidableEq, Repr

/-- Modelled from the spec: `Waive(checkName, reason, expiry)` (section
4.1), absent from the source tree.  It fails with `NotWaivable` when the
named check's waivable flag is false and with `AlreadyPassing` when the
check is not currently failing (its status is not BLOCKED); on either
failure the check list is returned unchanged. -/
def Waive (checks : List GateCheck) (n reason : String) (expiry : Nat) :
    WaiveOutcome × List GateCheck :=
  match checks.find? (fun c => c.name == n) with
  | none => (.notFound, checks)
  | some c =>
    if c.waivable = false then (.notWaivable, checks)
    else if c.status ≠ CheckStatus.BLOCKED then (.alreadyPassing, checks)
    else (.ok, checks.map (fun d =>
      if d.name == n then { d with status := .WAIVED, waiver := some ⟨reason, expiry⟩ } else d))

/- ## Rollout Controller state machine -/

/-- Release states of the rollout controller (section 4.3):
PENDING is initial; COMPLETED, ROLLED_BACK and FAILED are terminal. -/
inductive RStatus
  | PENDING
  | RUNNING
  | PAUSED
  | PROMOTING
  | ROLLING_BACK
  | COMPLETED
  | ROLLED_BACK
  | FAILED
deriving DecidableEq, Repr

/-- Terminal release states. -/
def RStatus.isTerminal : RStatus → Bool
  | .COMPLETED => true
  | .ROLLED_BACK => true
  | .FAILED => true
  | _ => false

/-- Synchronous command rejection of the rollout controller. -/
inductive CmdError
  | InvalidTransition
deriving DecidableEq, Repr

/-- Modelled from the spec: the per-release view of the rollout controller
(section 4.3), absent from the source tree: the release status, the index
of the current ramp step, the configured step list, and the recorded
rollback reason if any. -/
structure ControllerState where
  status : RStatus
  stepIdx : Nat
  steps : List Nat
  rollbackReason : Option String
deriving DecidableEq, Repr

/-- Modelled from the spec: the `Promote` command (section 4.3), absent
from the source tree.  It is only valid from PAUSED with a defined next
step, in which case the ramp advances; in any other state it is rejected
synchronously with InvalidTransition and the state is returned unchanged. -/
def Promote (s : ControllerState) : Except CmdError Unit × ControllerState :=
  if s.status = RStatus.PAUSED then
    if s.stepIdx + 1 < s.steps.length then
      (.ok (), { s with status := .RUNNING, stepIdx := s.stepIdx + 1 })
    else (.error .InvalidTransition, s)
  else (.error .InvalidTransition, s)

/-- Modelled from the spec: the `Rollback` command of the rollout
controller (section 4.3), absent from the source tree.  It is valid from
any non-terminal state and records the manual reason; on an already
rolled-back release it is an accepted no-op (section 4.4), while the other
terminal states reject it. -/
def RollbackCmd (s : ControllerState) (reason : String) :
    Except CmdError Unit × ControllerState :=
  if s.status.isTerminal then
    if s.status = RStatus.ROLLED_BACK then (.ok (), s)
    else (.error .InvalidTransition, s)
  else (.ok (), { s with status := .ROLLING_BACK, rollbackReason := some reason })

/- ## Rollback Engine -/

/-- Result record of a completed rollback. -/
structure RollbackResult where
  finalStatus : RStatus
  reason : String
deriving DecidableEq, Repr

/-- Error of the rollback engine: the traffic-routing collaborator did not
confirm within the SLA. -/
inductive RollbackError
  | RollbackTimeout
deriving DecidableEq, Repr

/-- Modelled from the spec: the state the Rollback Engine (section 4.4)
acts on, absent from the source tree: the release status, the number of
traffic-set commands issued to the traffic router so far, and the prior
rollback result if one was recorded. -/
structure RbState where
  status : RStatus
  trafficSetCount : Nat
  priorResult : Option RollbackResult
deriving DecidableEq, Repr

/-- Modelled from the spec: `Rollback(releaseID, reason) → RollbackResult`
of the Rollback Engine (section 4.4), absent from the source tree.  On an
already ROLLED_BACK release it is a no-op returning the prior result
without issuing a traffic-set command; otherwise it issues one traffic-set
command and, if the router confirms within the SLA (`confirm`), marks the
release ROLLED_BACK and records the result, else escalates with
RollbackTimeout. -/
def RollbackEngine (s : RbState) (reason : String) (confirm : Bool) :
    Except RollbackError RollbackResult × RbState :=
  if s.status = RStatus.ROLLED_BACK then
    match s.priorResult with
    | some r => (.ok r, s)
    | none =>
      let r : RollbackResult := ⟨.ROLLED_BACK, reason⟩
      (.ok r, { s with priorResult := some r })
  else
    if confirm then
      let r : RollbackResult := ⟨.ROLLED_BACK, reason⟩
      (.ok r, ⟨.ROLLED_BACK, s.trafficSetCount + 1, some r⟩)
    else (.error .RollbackTimeout, { s with trafficSetCount := s.trafficSetCount + 1 })

/- ## Pipeline Scheduler -/

/-- Idempotency key of one stage execution. -/
structure StageKey where
  runId : String
  stageName : String
  attempt : Nat
deriving DecidableEq, Repr

/-- Result payload of one stage execution. -/
structure StageResult where
  ok : Bool
  payload : String
deriving DecidableEq, Repr

/-- Modelled from the spec: the Pipeline Scheduler's execution record
(section 4.5), absent from the source tree: the cache of results keyed by
idempotency key, and a count of underlying side-effecting executions. -/
structure SchedulerState where
  cache : List (StageKey × StageResult)
  effectCount : Nat
deriving DecidableEq, Repr

/-- Cached result for a key, if any. -/
def lookupResult (st : SchedulerState) (k : StageKey) : Option StageResult :=
  (st.cache.find? (fun p => p.1 == k)).map (fun p => p.2)

/-- Modelled from the spec: one stage invocation of the Pipeline Scheduler
(section 4.5), absent from the source tree.  A key with a successful prior
result returns the cached result without re-executing; otherwise the
underlying operation runs (one side effect) and its result is cached. -/
def runStage (st : SchedulerState) (k : StageKey) (op : Unit → StageResult) :
    StageResult × SchedulerState :=
  match lookupResult st k with
  | some r =>
    if r.ok then (r, st)
    else
      let r2 := op ()
      (r2, ⟨(k, r2) :: st.cache, st.effectCount + 1⟩)
  | none =>
    let r2 := op ()
    (r2, ⟨(k, r2) :: st.cache, st.effectCount + 1⟩)

/- ## Release registry: one active release per (project, environment) -/

/-- A row of the `releases` table (schema in the source tree): target
project, environment, and release status. -/
structure Release where
  project : String
  env : String
  status : RStatus
deriving DecidableEq, Repr

/-- Rejection of `CreateRelease`. -/
inductive CreateError
  | ActiveReleaseExists
deriving DecidableEq, Repr

/-- Whether a row is an active release for the given project and
environment (non-terminal status). -/
def isActiveFor (p e : String) (r : Release) : Bool :=
  r.project == p && r.env == e && !r.status.isTerminal

/-- Whether the registry holds an active release for (project, env). -/
def activeExists (st : List Release) (p e : String) : Bool :=
  st.any (isActiveFor p e)

/-- Number of active releases for (project, env) in the registry. -/
def activeCount (st : List Release) (p e : String) : Nat :=
  st.countP (isActiveFor p e)

/-- Modelled from the spec: `CreateRelease` (section 6), absent from the
source tree.  It rejects when an active release already exists for the
(project, env) pair and otherwise appends a new PENDING release. -/
def handleCreateRelease (st : List Release) (p e : String) :
    Except CreateError (List Release) :=
  if activeExists st p e then .error .ActiveReleaseExists
  else .ok (st ++ [⟨p, e, .PENDING⟩])

/-- Modelled from the spec: the edges of the release state machine
(section 4.3): PENDING to RUNNING; RUNNING to PAUSED, PROMOTING or
ROLLING_BACK; PAUSED back to RUNNING or to ROLLING_BACK; PROMOTING to
RUNNING or COMPLETED; ROLLING_BACK to ROLLED_BACK or FAILED.  There is no
edge out of a terminal state. -/
def allowedTransition : RStatus → RStatus → Bool
  | .PENDING, .RUNNING => true
  | .RUNNING, .PAUSED => true
  | .RUNNING, .PROMOTING => true
  | .RUNNING, .ROLLING_BACK => true
  | .PAUSED, .RUNNING => true
  | .PAUSED, .ROLLING_BACK => true
  | .PROMOTING, .RUNNING => true
  | .PROMOTING, .COMPLETED => true
  | .ROLLING_BACK, .ROLLED_BACK => true
  | .ROLLING_BACK, .FAILED => true
  | _, _ => false

/-- Modelled from the spec: the transitions of the release registry.  A
step either creates a release through `handleCreateRelease` (only when no
active release exists for the pair) or moves one existing release along an
allowed state-machine edge, keeping its project and environment. -/
inductive RegStep : List Release → List Release → Prop
  | create (st : List Release) (p e : String) (h : activeExists st p e = false) :
      RegStep st (st ++ [⟨p, e, .PENDING⟩])
  | transition (l₁ l₂ : List Release) (r : Release) (b : RStatus)
      (h : allowedTransition r.status b = true) :
      RegStep (l₁ ++ r :: l₂) (l₁ ++ ⟨r.project, r.env, b⟩ :: l₂)

/-- Registry states reachable from the empty registry. -/
inductive RegReachable : List Release → Prop
  | init : RegReachable []
  | step (s t : List Release) : RegReachable s → RegStep s t → RegReachable t

/- ## Rollout traffic machine (all strategies) -/

/-- Traffic split between the stable segment and the candidate (canary)
segment, in percent. -/
structure TrafficSplit where
  stable : Nat
  canary : Nat
deriving DecidableEq, Repr

/-- Deployment strategies of the rollout controller (section 4.3). -/
inductive Strategy
  | blueGreen
  | canary
  | rolling
  | direct
deriving DecidableEq, Repr

/-- Modelled from the spec: the traffic-facing rollout state (section
4.3), absent from the source tree: the strategy, how many stages or ramp
steps have been applied, the intended traffic split, the candidate
percentages set so far (most recent first), and whether the rollout is
still active. -/
structure RolloutState where
  strategy : Strategy
  applied : Nat
  split : TrafficSplit
  history : List Nat
  active : Bool
deriving DecidableEq, Repr

/-- Initial rollout state: all traffic on stable, nothing set yet. -/
def rolloutInit (strat : Strategy) : RolloutState := ⟨strat, 0, ⟨100, 0⟩, [], true⟩

/-- Modelled from the spec: the traffic transitions of a rollout over the
configured canary step list (sections 4.3 and 4.4), absent from the
source tree.  `canaryAdvance` sets the next configured candidate
percentage of a canary ramp; `switchTraffic` is blue-green's atomic full
cutover; `directDeploy` puts all traffic on the candidate at once;
`rollingAdvance` moves an updated instance subset (any fraction up to the
whole fleet) onto the candidate; `rollback` sets the candidate percentage
to zero and terminates; `complete` terminates without a traffic change. -/
inductive RolloutStep (steps : List Nat) : RolloutState → RolloutState → Prop
  | canaryAdvance (s : RolloutState) (hc : s.strategy = Strategy.canary)
      (h : s.applied < steps.length) (ha : s.active = true) :
      RolloutStep steps s
        ⟨s.strategy, s.applied + 1,
          ⟨100 - steps.get ⟨s.applied, h⟩, steps.get ⟨s.applied, h⟩⟩,
          steps.get ⟨s.applied, h⟩ :: s.history, true⟩
  | switchTraffic (s : RolloutState) (hb : s.strategy = Strategy.blueGreen)
      (h0 : s.applied = 0) (ha : s.active = true) :
      RolloutStep steps s ⟨s.strategy, 1, ⟨0, 100⟩, 100 :: s.history, true⟩
  | directDeploy (s : RolloutState) (hd : s.strategy = Strategy.direct)
      (h0 : s.applied = 0) (ha : s.active = true) :
      RolloutStep steps s ⟨s.strategy, 1, ⟨0, 100⟩, 100 :: s.history, true⟩
  | rollingAdvance (s : RolloutState) (p : Nat) (hr : s.strategy = Strategy.rolling)
      (hp : p ≤ 100) (ha : s.active = true) :
      RolloutStep steps s ⟨s.strategy, s.applied + 1, ⟨100 - p, p⟩, p :: s.history, true⟩
  | rollback (s : RolloutState) (ha : s.active = true) :
      RolloutStep steps s ⟨s.strategy, s.applied, ⟨100, 0⟩, 0 :: s.history, false⟩
  | complete (s : RolloutState) (ha : s.active = true) :
      RolloutStep steps s ⟨s.strategy, s.applied, s.split, s.history, false⟩

/-- Rollout states reachable from the initial state of some strategy. -/
inductive RolloutReachable (steps : List Nat) : RolloutState → Prop
  | init (strat : Strategy) : RolloutReachable steps (rolloutInit strat)
  | step (s t : RolloutState) :
      RolloutReachable steps s → RolloutStep steps s t → RolloutReachable steps t

/- ## Health Monitor -/

/-- Health classification of a release's traffic slice. -/
inductive Health
  | HEALTHY
  | DEGRADED
  | BREACHED
deriving DecidableEq, Repr

/-- Modelled from the spec: one `HealthSample` (section 3), absent from the
source tree: timestamp (seconds), error rate (percent), p95 latency (ms),
and the health-check failure percentage. -/
structure HealthSample where
  timestamp : Nat
  errorRatePct : Nat
  p95LatencyMs : Nat
  hcFailurePct : Nat
deriving DecidableEq, Repr

/-- Modelled from the spec: the classification thresholds of the Health
Monitor (section 4.2): error rate limit 5 percent sustained 120 s, p95
above twice the baseline sustained 300 s, health-check failure above 50
percent sustained 60 s, and the monitoring-silence grace period 180 s. -/
structure HealthThresholds where
  errorRateLimitPct : Nat
  errorSustainSec : Nat
  p95BaselineMs : Nat
  p95SustainSec : Nat
  hcFailureLimitPct : Nat
  hcSustainSec : Nat
  graceSec : Nat
deriving DecidableEq, Repr

/-- Default thresholds of the spec (section 4.2) with a 250 ms latency
baseline. -/
def defaultThresholds : HealthThresholds := ⟨5, 120, 250, 300, 50, 60, 180⟩

/-- Timestamp of the most recent sample, or the monitoring start when no
sample arrived. -/
def lastSeen (start : Nat) (window : List HealthSample) : Nat :=
  window.foldl (fun m s => max m s.timestamp) start

/-- Samples of the window that fall inside the last `dur` seconds. -/
def recentSamples (window : List HealthSample) (now dur : Nat) : List HealthSample :=
  window.filter (fun s => decide (now ≤ s.timestamp + dur))

/-- Modelled from the spec: a metric breach sustained over the full
required duration: the recent window is non-empty, every recent sample
exceeds the limit, and monitoring covers the window start (some sample is
at least `dur` old), so that a single not-yet-sustained breach or a
partially observed window does not count as sustained. -/
def sustainedAbove (window : List HealthSample) (now dur : Nat)
    (f : HealthSample → Nat) (limit : Nat) : Bool :=
  !(recentSamples window now dur).isEmpty &&
    (recentSamples window now dur).all (fun s => decide (limit < f s)) &&
    window.any (fun s => decide (s.timestamp + dur ≤ now))

/-- Every sample of the window is within all thresholds. -/
def withinThresholds (th : HealthThresholds) (window : List HealthSample) : Bool :=
  window.all (fun s =>
    decide (s.errorRatePct ≤ th.errorRateLimitPct) &&
    decide (s.p95LatencyMs ≤ 2 * th.p95BaselineMs) &&
    decide (s.hcFailurePct ≤ th.hcFailureLimitPct))

/-- Modelled from the spec: `Classify(window, thresholds)` of the Health
Monitor (section 4.2), absent from the source tree.  A monitoring silence
longer than the grace period is BREACHED; a sustained threshold breach is
BREACHED; a non-sustained single-sample breach is DEGRADED; otherwise
HEALTHY. -/
def Classify (th : HealthThresholds) (start now : Nat) (window : List HealthSample) :
    Health :=
  if th.graceSec < now - lastSeen start window then .BREACHED
  else if sustainedAbove window now th.errorSustainSec (fun s => s.errorRatePct)
            th.errorRateLimitPct
        || sustainedAbove window now th.p95SustainSec (fun s => s.p95LatencyMs)
            (2 * th.p95BaselineMs)
        || sustainedAbove window now th.hcSustainSec (fun s => s.hcFailurePct)
            th.hcFailureLimitPct then .BREACHED
  else if window.any (fun s =>
          decide (th.errorRateLimitPct < s.errorRatePct) ||
          decide (2 * th.p95BaselineMs < s.p95LatencyMs) ||
          decide (th.hcFailureLimitPct < s.hcFailurePct)) then .DEGRADED
  else .HEALTHY

/-- Reaction of the rollout controller to a health classification. -/
inductive MonitorAction
  | proceed
  | hold
  | triggerRollback
deriving DecidableEq, Repr

/-- Modelled from the spec: a BREACHED classification triggers automatic
rollback, DEGRADED pauses promotion, HEALTHY proceeds (sections 4.2 and
4.3). -/
def healthAction : Health → MonitorAction
  | .BREACHED => .triggerRollback
  | .DEGRADED => .hold
  | .HEALTHY => .proceed

/- ## Concrete scenario inputs -/

/-- Plan policies in which the test-coverage gate failed (coverage 72
against threshold 80, `enabled = false`) and the other gate passed. -/
def scenarioPolicies : List PlanPolicy :=
  [⟨"test_coverage", false⟩, ⟨"security_scan", true⟩]

/-- Configured coverage check: coverage at least 80, waivable, no waiver. -/
def coverageConfig : List PolicyCheck :=
  [⟨"test_coverage", .atLeast, 80, true, none⟩]

/-- Supplied coverage measurement: 72 percent. -/
def coverageResults : List CheckResult := [⟨"test_coverage", 72⟩]

/- ## Theorems -/

/-- C10: a rollback request from the release console carries reason
"manual" exactly when the user-supplied reason is the empty string, and
carries the user-supplied reason unchanged otherwise. -/
theorem c10_rollback_reason_default (s : String) :
    (s = "" → rollbackRequestReason s = "manual") ∧
    (s ≠ "" → rollbackRequestReason s = s) := by
  constructor
  · intro h
    subst h
    rfl
  · intro h
    unfold rollbackRequestReason
    rw [if_neg]
    simpa using h

/-- Witness for C10 at the empty reason and at a non-empty reason. -/
theorem c10_rollback_reason_default_witness :
    rollbackRequestReason "" = "manual" ∧
    rollbackRequestReason "error spike" = "error spike" :=
  ⟨(c10_rollback_reason_default "").1 rfl,
   (c10_rollback_reason_default "error spike").2 (by decide)⟩

/-- C3: with the test-coverage check failing (coverage 72 against
threshold 80, no waiver), the plan page code computes an empty
failed-policy list and allows approval, because its filter excludes
`test_coverage`; the specified readiness evaluation instead yields
`ready = false` with blockers exactly `["test_coverage"]`. -/
theorem c3_coverage_gate_divergence :
    failedPolicies scenarioPolicies = [] ∧
    canApprove scenarioPolicies = true ∧
    (Evaluate coverageConfig coverageResults 0).ready = false ∧
    (Evaluate coverageConfig coverageResults 0).blockers = ["test_coverage"] := by
  decide

/-- C2: the overall `ready` verdict of `Evaluate` is true exactly when no
check in the report has status BLOCKED (failing checks with an active
non-expired waiver are WAIVED, hence non-blocking). -/
theorem c2_ready_iff_no_blocked (config : List PolicyCheck)
    (results : List CheckResult) (now : Nat) :
    (Evaluate config results now).ready = true ↔
      ∀ p ∈ (Evaluate config results now).checks, p.2 ≠ CheckStatus.BLOCKED := by
  show (((config.map (fun c => (c.name, evalCheck c results now))).filter
      (fun p => p.2 == CheckStatus.BLOCKED)).map (fun p => p.1)).isEmpty = true ↔ _
  rw [List.isEmpty_iff, List.map_eq_nil_iff, List.filter_eq_nil_iff]
  constructor
  · intro h p hp
    have := h p hp
    simpa using this
  · intro h p hp
    simpa using h p hp

/-- C9: `Waive` fails with NotWaivable whenever the named check is not
waivable, and fails with AlreadyPassing whenever the named check is
waivable but not currently failing (not BLOCKED); in both failure cases
the check list is returned unchanged, so no check status changes. -/
theorem c9_waive_failure_modes (checks : List GateCheck) (n reason : String)
    (expiry : Nat) (c : GateCheck)
    (hfind : checks.find? (fun d => d.name == n) = some c) :
    (c.waivable = false →
      Waive checks n reason expiry = (.notWaivable, checks)) ∧
    (c.waivable = true → c.status ≠ CheckStatus.BLOCKED →
      Waive checks n reason expiry = (.alreadyPassing, checks)) := by
  constructor
  · intro h
    unfold Waive
    rw [hfind]
    simp only [if_pos h]
  · intro h hs
    unfold Waive
    rw [hfind]
    have hw : ¬ (c.waivable = false) := by simp [h]
    simp only [if_neg hw, if_pos hs]

/-- Witness for C9: waiving the non-waivable blocked check and waiving the
waivable passing check both fail and leave the checks unchanged. -/
theorem c9_waive_failure_modes_witness :
    Waive [⟨"security_scan", false, CheckStatus.BLOCKED, none⟩] "security_scan" "r" 10 =
      (.notWaivable, [⟨"security_scan", false, CheckStatus.BLOCKED, none⟩]) ∧
    Waive [⟨"perf_budget", true, CheckStatus.PASSED, none⟩] "perf_budget" "r" 10 =
      (.alreadyPassing, [⟨"perf_budget", true, CheckStatus.PASSED, none⟩]) :=
  ⟨(c9_waive_failure_modes [⟨"security_scan", false, CheckStatus.BLOCKED, none⟩]
      "security_scan" "r" 10 ⟨"security_scan", false, CheckStatus.BLOCKED, none⟩
      (by decide)).1 rfl,
   (c9_waive_failure_modes [⟨"perf_budget", true, CheckStatus.PASSED, none⟩]
      "perf_budget" "r" 10 ⟨"perf_budget", true, CheckStatus.PASSED, none⟩
      (by decide)).2 rfl (by decide)⟩

/-- C4: `Promote` is accepted exactly from PAUSED with a defined next
step; any rejected `Promote` is an InvalidTransition that leaves the state
unchanged; `RollbackCmd` is accepted from every non-terminal state. -/
theorem c4_promote_only_from_paused (s : ControllerState) :
    ((Promote s).1 = .ok () ↔
       s.status = RStatus.PAUSED ∧ s.stepIdx + 1 < s.steps.length) ∧
    ((Promote s).1 = .error .InvalidTransition → (Promote s).2 = s) ∧
    (∀ reason, s.status.isTerminal = false → (RollbackCmd s reason).1 = .ok ()) := by
  refine ⟨?_, ?_, ?_⟩
  · unfold Promote
    by_cases h1 : s.status = RStatus.PAUSED
    · rw [if_pos h1]
      by_cases h2 : s.stepIdx + 1 < s.steps.length
      · rw [if_pos h2]
        simp [h1, h2]
      · rw [if_neg h2]
        simp [h2]
    · rw [if_neg h1]
      simp [h1]
  · intro h
    unfold Promote at h ⊢
    by_cases h1 : s.status = RStatus.PAUSED
    · rw [if_pos h1] at h ⊢
      by_cases h2 : s.stepIdx + 1 < s.steps.length
      · rw [if_pos h2] at h
        simp at h
      · rw [if_neg h2]
    · rw [if_neg h1]
  · intro reason ht
    unfold RollbackCmd
    rw [if_neg (by simp [ht])]

/-- Witness for C4: Promote from ROLLED_BACK is rejected without a state
change, Promote from PAUSED with a next step is accepted, and Rollback
from RUNNING is accepted. -/
theorem c4_promote_only_from_paused_witness :
    (Promote ⟨RStatus.ROLLED_BACK, 0, [1, 5, 25, 100], none⟩).2 =
      ⟨RStatus.ROLLED_BACK, 0, [1, 5, 25, 100], none⟩ ∧
    (Promote ⟨RStatus.PAUSED, 0, [1, 5, 25, 100], none⟩).1 = .ok () ∧
    (RollbackCmd ⟨RStatus.RUNNING, 1, [1, 5, 25, 100], none⟩ "latency").1 = .ok () :=
  ⟨(c4_promote_only_from_paused _).2.1 rfl,
   (c4_promote_only_from_paused _).1.mpr (by decide),
   (c4_promote_only_from_paused _).2.2 "latency" rfl⟩

/-- Helper: on a ROLLED_BACK state with a recorded prior result, the
rollback engine returns that result and leaves the state untouched. -/
theorem rollbackEngine_rolledBack (t : RbState) (r : RollbackResult)
    (x : String) (y : Bool)
    (h1 : t.status = RStatus.ROLLED_BACK) (h2 : t.priorResult = some r) :
    RollbackEngine t x y = (.ok r, t) := by
  unfold RollbackEngine
  rw [if_pos h1]
  simp only [h2]

/-- C6: rollback is idempotent: after any successful `RollbackEngine`
call, a second call with any reason and any router behaviour returns the
same result and the same state, so no second traffic-set command is issued
and the second call is not an error. -/
theorem c6_rollback_idempotent (s : RbState) (reason reason' : String)
    (confirm confirm' : Bool) (r₁ : RollbackResult) (s₁ : RbState)
    (h : RollbackEngine s reason confirm = (.ok r₁, s₁)) :
    RollbackEngine s₁ reason' confirm' = (.ok r₁, s₁) := by
  have hs : s₁.status = RStatus.ROLLED_BACK ∧ s₁.priorResult = some r₁ := by
    unfold RollbackEngine at h
    by_cases h0 : s.status = RStatus.ROLLED_BACK
    · rw [if_pos h0] at h
      cases hp : s.priorResult with
      | some r =>
        rw [hp] at h
        simp only [Prod.mk.injEq, Except.ok.injEq] at h
        obtain ⟨hr, hst⟩ := h
        subst hst
        exact ⟨h0, by rw [hp, hr]⟩
      | none =>
        rw [hp] at h
        simp only [Prod.mk.injEq, Except.ok.injEq] at h
        obtain ⟨hr, hst⟩ := h
        subst hst
        exact ⟨h0, by rw [hr]⟩
    · rw [if_neg h0] at h
      by_cases hc : confirm = true
      · rw [if_pos hc] at h
        simp only [Prod.mk.injEq, Except.ok.injEq] at h
        obtain ⟨hr, hst⟩ := h
        subst hst
        exact ⟨rfl, by rw [hr]⟩
      · rw [if_neg hc] at h
        simp at h
  exact rollbackEngine_rolledBack s₁ r₁ reason' confirm' hs.1 hs.2

/-- Witness for C6: a second rollback after a confirmed rollback from
RUNNING returns the first result and leaves the traffic-set count at 1. -/
theorem c6_rollback_idempotent_witness :
    RollbackEngine ⟨RStatus.ROLLED_BACK, 1, some ⟨RStatus.ROLLED_BACK, "breach"⟩⟩ "again" false =
      (.ok ⟨RStatus.ROLLED_BACK, "breach"⟩,
       ⟨RStatus.ROLLED_BACK, 1, some ⟨RStatus.ROLLED_BACK, "breach"⟩⟩) :=
  c6_rollback_idempotent ⟨RStatus.RUNNING, 0, none⟩ "breach" "again" true false
    ⟨RStatus.ROLLED_BACK, "breach"⟩
    ⟨RStatus.ROLLED_BACK, 1, some ⟨RStatus.ROLLED_BACK, "breach"⟩⟩ rfl

/-- Helper: a key with a successful cached result is served from the
cache without a new execution. -/
theorem runStage_cached (t : SchedulerState) (k : StageKey) (r : StageResult)
    (op : Unit → StageResult)
    (h1 : lookupResult t k = some r) (h2 : r.ok = true) :
    runStage t k op = (r, t) := by
  unfold runStage
  simp only [h1, if_pos h2]

/-- Helper: after a cache insert at the front, lookup finds that entry. -/
theorem lookupResult_insert (c : List (StageKey × StageResult)) (n : Nat)
    (k : StageKey) (r : StageResult) :
    lookupResult ⟨(k, r) :: c, n⟩ k = some r := by
  show (((k, r) :: c).find? (fun p => p.1 == k)).map (fun p => p.2) = some r
  rw [List.find?_cons_of_pos c (by simp)]
  rfl

/-- C7: re-invoking a stage with the same idempotency key after a
successful completion returns the identical cached result and performs no
duplicate side effect: the scheduler state (including the side-effect
count) is unchanged and the supplied operation of the second call is not
executed. -/
theorem c7_stage_idempotent (st : SchedulerState) (k : StageKey)
    (op op' : Unit → StageResult) (r₁ : StageResult) (st₁ : SchedulerState)
    (h : runStage st k op = (r₁, st₁)) (hok : r₁.ok = true) :
    runStage st₁ k op' = (r₁, st₁) := by
  have hcached : lookupResult st₁ k = some r₁ := by
    unfold runStage at h
    cases hl : lookupResult st k with
    | some r =>
      rw [hl] at h
      by_cases hr : r.ok = true
      · simp only [if_pos hr] at h
        simp only [Prod.mk.injEq] at h
        obtain ⟨hr1, hst⟩ := h
        subst hst
        rw [hl, hr1]
      · simp only [if_neg hr] at h
        simp only [Prod.mk.injEq] at h
        obtain ⟨hr1, hst⟩ := h
        subst hst
        subst hr1
        exact lookupResult_insert st.cache (st.effectCount + 1) k (op ())
    | none =>
      rw [hl] at h
      simp only [Prod.mk.injEq] at h
      obtain ⟨hr1, hst⟩ := h
      subst hst
      subst hr1
      exact lookupResult_insert st.cache (st.effectCount + 1) k (op ())
  exact runStage_cached st₁ k r₁ op' hcached hok

/-- Witness for C7: re-running a completed ramp stage with a different
operation returns the cached result and leaves the effect count at 1. -/
theorem c7_stage_idempotent_witness :
    runStage ⟨[(⟨"rel-1", "rollout.ramp_5pct", 1⟩, ⟨true, "done"⟩)], 1⟩
        ⟨"rel-1", "rollout.ramp_5pct", 1⟩ (fun _ => ⟨false, "rerun"⟩) =
      (⟨true, "done"⟩, ⟨[(⟨"rel-1", "rollout.ramp_5pct", 1⟩, ⟨true, "done"⟩)], 1⟩) :=
  c7_stage_idempotent ⟨[], 0⟩ ⟨"rel-1", "rollout.ramp_5pct", 1⟩
    (fun _ => ⟨true, "done"⟩) (fun _ => ⟨false, "rerun"⟩)
    ⟨true, "done"⟩ ⟨[(⟨"rel-1", "rollout.ramp_5pct", 1⟩, ⟨true, "done"⟩)], 1⟩ rfl rfl

/-- Helper: when every sample of the window keeps a metric within the
limit, no sustained breach of that metric is detected. -/
theorem sustainedAbove_eq_false_of_within (window : List HealthSample)
    (now dur limit : Nat) (f : HealthSample → Nat)
    (h : ∀ s ∈ window, f s ≤ limit) :
    sustainedAbove window now dur f limit = false := by
  unfold sustainedAbove
  cases hre : recentSamples window now dur with
  | nil => simp
  | cons a l =>
    have ha : a ∈ window := by
      have : a ∈ recentSamples window now dur := by
        rw [hre]
        exact List.mem_cons_self a l
      exact List.mem_of_mem_filter this
    have hfa : ¬ (limit < f a) := by
      have := h a ha
      omega
    simp [List.all_cons, hfa]

/-- C5: a monitoring silence longer than the grace period is classified
BREACHED and triggers automatic rollback even when no metric threshold was
crossed, while a gap no longer than the grace period is non-breaching: if
all samples are within thresholds the classification is HEALTHY. -/
theorem c5_monitoring_silence (th : HealthThresholds) (start now : Nat)
    (window : List HealthSample) :
    (th.graceSec < now - lastSeen start window →
       Classify th start now window = .BREACHED ∧
       healthAction (Classify th start now window) = .triggerRollback) ∧
    (now - lastSeen start window ≤ th.graceSec →
       withinThresholds th window = true →
       Classify th start now window = .HEALTHY) := by
  constructor
  · intro hgap
    have hc : Classify th start now window = .BREACHED := by
      unfold Classify
      rw [if_pos hgap]
    exact ⟨hc, by rw [hc]; rfl⟩
  · intro hle hwithin
    have hw : ∀ s ∈ window,
        s.errorRatePct ≤ th.errorRateLimitPct ∧
        s.p95LatencyMs ≤ 2 * th.p95BaselineMs ∧
        s.hcFailurePct ≤ th.hcFailureLimitPct := by
      intro s hs
      simp only [withinThresholds, List.all_eq_true] at hwithin
      have h2 := hwithin s hs
      simp at h2
      exact ⟨h2.1.1, h2.1.2, h2.2⟩
    have h1 := sustainedAbove_eq_false_of_within window now th.errorSustainSec
      th.errorRateLimitPct (fun s => s.errorRatePct) (fun s hs => (hw s hs).1)
    have h2 := sustainedAbove_eq_false_of_within window now th.p95SustainSec
      (2 * th.p95BaselineMs) (fun s => s.p95LatencyMs) (fun s hs => (hw s hs).2.1)
    have h3 := sustainedAbove_eq_false_of_within window now th.hcSustainSec
      th.hcFailureLimitPct (fun s => s.hcFailurePct) (fun s hs => (hw s hs).2.2)
    have hany : window.any (fun s =>
        decide (th.errorRateLimitPct < s.errorRatePct) ||
        decide (2 * th.p95BaselineMs < s.p95LatencyMs) ||
        decide (th.hcFailureLimitPct < s.hcFailurePct)) = false := by
      by_contra hx
      have hx2 : window.any (fun s =>
          decide (th.errorRateLimitPct < s.errorRatePct) ||
          decide (2 * th.p95BaselineMs < s.p95LatencyMs) ||
          decide (th.hcFailureLimitPct < s.hcFailurePct)) = true := by
        cases hval : window.any (fun s =>
            decide (th.errorRateLimitPct < s.errorRatePct) ||
            decide (2 * th.p95BaselineMs < s.p95LatencyMs) ||
            decide (th.hcFailureLimitPct < s.hcFailurePct)) with
        | true => rfl
        | false => exact absurd hval hx
      rw [List.any_eq_true] at hx2
      obtain ⟨s, hs, hp⟩ := hx2
      have := hw s hs
      simp at hp
      omega
    unfold Classify
    rw [if_neg (by omega), if_neg (by simp [h1, h2, h3]), if_neg (by simp [hany])]

/-- Witness for C5: with default thresholds a four-minute total silence is
BREACHED and triggers rollback, while a silence at the grace bound with no
samples is HEALTHY. -/
theorem c5_monitoring_silence_witness :
    Classify defaultThresholds 0 240 [] = .BREACHED ∧
    healthAction (Classify defaultThresholds 0 240 []) = .triggerRollback ∧
    Classify defaultThresholds 0 100 [] = .HEALTHY :=
  ⟨((c5_monitoring_silence defaultThresholds 0 240 []).1 (by decide)).1,
   ((c5_monitoring_silence defaultThresholds 0 240 []).1 (by decide)).2,
   (c5_monitoring_silence defaultThresholds 0 100 []).2 (by decide) rfl⟩

/-- Helper: no state-machine edge leaves a terminal state. -/
theorem allowedTransition_not_terminal :
    ∀ a b : RStatus, allowedTransition a b = true → a.isTerminal = false := by
  intro a b h
  cases a <;> cases b <;> simp_all [allowedTransition, RStatus.isTerminal]

/-- Helper: the registry invariant: from the empty registry, every
reachable registry holds at most one active release per (project, env). -/
theorem regInvariant (st : List Release) (h : RegReachable st) (p e : String) :
    activeCount st p e ≤ 1 := by
  induction h with
  | init => simp [activeCount]
  | step s t hs hstep ih =>
    cases hstep with
    | create stc pc ec hne =>
      unfold activeCount at ih ⊢
      rw [List.countP_append]
      by_cases hpe : pc = p ∧ ec = e
      · have hz : s.countP (isActiveFor p e) = 0 := by
          rw [List.countP_eq_zero]
          intro a ha hpa
          have hex : activeExists s pc ec = true := by
            unfold activeExists
            rw [List.any_eq_true]
            exact ⟨a, ha, by rw [hpe.1, hpe.2]; exact hpa⟩
          rw [hne] at hex
          cases hex
        have hone : List.countP (isActiveFor p e) [(⟨pc, ec, .PENDING⟩ : Release)] ≤ 1 := by
          rw [List.countP_cons, List.countP_nil]
          by_cases hy : isActiveFor p e ⟨pc, ec, RStatus.PENDING⟩ = true
          · rw [if_pos hy]
          · rw [if_neg hy]
            omega
        omega
      · have hzn : List.countP (isActiveFor p e) [(⟨pc, ec, .PENDING⟩ : Release)] = 0 := by
          rw [List.countP_eq_zero]
          intro a ha hpa
          simp at ha
          subst ha
          simp [isActiveFor, RStatus.isTerminal] at hpa
          exact hpe hpa
        omega
    | transition l₁ l₂ r b hallow =>
      unfold activeCount at ih ⊢
      rw [List.countP_append, List.countP_cons] at ih ⊢
      have hpred : isActiveFor p e ⟨r.project, r.env, b⟩ = true →
          isActiveFor p e r = true := by
        intro hx
        simp only [isActiveFor, Bool.and_eq_true, Bool.not_eq_true'] at hx ⊢
        exact ⟨hx.1, allowedTransition_not_terminal r.status b hallow⟩
      have hite : (if isActiveFor p e ⟨r.project, r.env, b⟩ then 1 else 0) ≤
          (if isActiveFor p e r then 1 else 0) := by
        by_cases hx : isActiveFor p e ⟨r.project, r.env, b⟩ = true
        · rw [if_pos hx, if_pos (hpred hx)]
        · rw [if_neg hx]
          omega
      omega

/-- C1: every registry reachable from the empty registry holds at most one
active (non-terminal) release per (project, environment) pair, and
`handleCreateRelease` invoked while an active release exists for the pair
returns a rejection instead of creating a second release. -/
theorem c1_single_active_release (st : List Release) (h : RegReachable st)
    (p e : String) :
    activeCount st p e ≤ 1 ∧
    (activeExists st p e = true →
      handleCreateRelease st p e = .error .ActiveReleaseExists) := by
  refine ⟨regInvariant st h p e, ?_⟩
  intro hx
  unfold handleCreateRelease
  rw [if_pos hx]

/-- Witness for C1: a registry with one pending release for
(web, production) is reachable, satisfies the bound, and rejects a second
`CreateRelease` for the same pair. -/
theorem c1_single_active_release_witness :
    activeCount [⟨"web", "production", RStatus.PENDING⟩] "web" "production" ≤ 1 ∧
    handleCreateRelease [⟨"web", "production", RStatus.PENDING⟩] "web" "production" =
      .error .ActiveReleaseExists := by
  have hr : RegReachable [⟨"web", "production", RStatus.PENDING⟩] :=
    RegReachable.step _ _ RegReachable.init (RegStep.create [] "web" "production" rfl)
  exact ⟨(c1_single_active_release _ hr "web" "production").1,
    (c1_single_active_release _ hr "web" "production").2 (by decide)⟩

/-- Helper: the rollout machine invariant: from the initial state of any
strategy, the traffic split sums to 100, and for a canary release the
non-zero candidate percentages set so far are exactly the first `applied`
configured steps, in order. -/
theorem rolloutInvariant (steps : List Nat) (s : RolloutState)
    (hsteps : ∀ q ∈ steps, 0 < q ∧ q ≤ 100) (h : RolloutReachable steps s) :
    s.split.stable + s.split.canary = 100 ∧
    (s.strategy = Strategy.canary →
      (s.history.filter (fun q => q != 0)).reverse = steps.take s.applied ∧
      s.applied ≤ steps.length) := by
  induction h with
  | init strat => simp [rolloutInit]
  | step s t hs hstep ih =>
    obtain ⟨ih1, ih2⟩ := ih
    cases hstep with
    | canaryAdvance hc hlt ha =>
      have hq := hsteps (steps.get ⟨s.applied, hlt⟩) (List.get_mem steps s.applied hlt)
      obtain ⟨ih2a, ih2b⟩ := ih2 hc
      refine ⟨?_, fun _ => ⟨?_, ?_⟩⟩
      · show 100 - steps.get ⟨s.applied, hlt⟩ + steps.get ⟨s.applied, hlt⟩ = 100
        omega
      · show ((steps.get ⟨s.applied, hlt⟩ :: s.history).filter (fun q => q != 0)).reverse =
          steps.take (s.applied + 1)
        rw [List.filter_cons_of_pos (by rw [bne_iff_ne]; omega), List.reverse_cons, ih2a,
          List.take_succ, List.getElem?_eq_getElem hlt]
        rfl
      · show s.applied + 1 ≤ steps.length
        omega
    | switchTraffic hb h0 ha =>
      refine ⟨by simp, ?_⟩
      intro hcan
      rw [hb] at hcan
      exact absurd hcan (by decide)
    | directDeploy hd h0 ha =>
      refine ⟨by simp, ?_⟩
      intro hcan
      rw [hd] at hcan
      exact absurd hcan (by decide)
    | rollingAdvance p hr hp ha =>
      refine ⟨?_, ?_⟩
      · show 100 - p + p = 100
        omega
      · intro hcan
        rw [hr] at hcan
        exact absurd hcan (by decide)
    | rollback ha =>
      refine ⟨by simp, ?_⟩
      intro hcan
      obtain ⟨ih2a, ih2b⟩ := ih2 hcan
      refine ⟨?_, ih2b⟩
      show ((0 :: s.history).filter (fun q => q != 0)).reverse = steps.take s.applied
      rw [List.filter_cons_of_neg (by simp)]
      exact ih2a
    | complete ha =>
      exact ⟨ih1, ih2⟩

/-- Counterexample for C8: with the default step list, the canary state
reached by one ramp step followed by a rollback has set the candidate
percentage to 0, which is not a member of the configured step list,
refuting the claim that every candidate-traffic percentage ever set is a
member of the configured step list. -/
theorem c8_counterexample :
    RolloutReachable [1, 5, 25, 100] ⟨Strategy.canary, 1, ⟨100, 0⟩, [0, 1], false⟩ ∧
    0 ∈ ([0, 1] : List Nat) ∧ 0 ∉ ([1, 5, 25, 100] : List Nat) := by
  refine ⟨?_, by decide, by decide⟩
  have h1 : RolloutStep [1, 5, 25, 100] (rolloutInit Strategy.canary)
      ⟨Strategy.canary, 1, ⟨99, 1⟩, [1], true⟩ :=
    RolloutStep.canaryAdvance (rolloutInit Strategy.canary) rfl (by decide) rfl
  have h2 : RolloutStep [1, 5, 25, 100] ⟨Strategy.canary, 1, ⟨99, 1⟩, [1], true⟩
      ⟨Strategy.canary, 1, ⟨100, 0⟩, [0, 1], false⟩ :=
    RolloutStep.rollback ⟨Strategy.canary, 1, ⟨99, 1⟩, [1], true⟩ rfl
  exact RolloutReachable.step _ _
    (RolloutReachable.step _ _ (RolloutReachable.init Strategy.canary) h1) h2

/-- C8 (amended): at every reachable state of a release of any strategy
the traffic split sums to exactly 100, and for a canary release the
candidate percentages set during the ramp (the non-zero ones: a rollback
additionally sets the candidate percentage to 0) form, in order, a prefix
of the configured step list, so ramp steps are taken in order, are never
skipped, and are all members of the configured step list. -/
theorem c8_traffic_invariant (steps : List Nat) (s : RolloutState)
    (hsteps : ∀ q ∈ steps, 0 < q ∧ q ≤ 100) (h : RolloutReachable steps s) :
    s.split.stable + s.split.canary = 100 ∧
    (s.strategy = Strategy.canary →
      (s.history.filter (fun q => q != 0)).reverse <+: steps) := by
  obtain ⟨h1, h2⟩ := rolloutInvariant steps s hsteps h
  refine ⟨h1, ?_⟩
  intro hcan
  obtain ⟨h2a, h2b⟩ := h2 hcan
  rw [h2a]
  exact List.take_prefix s.applied steps

/-- Witness for C8 at the canary state reached after the 1 percent and 5
percent ramp steps of the default step list, and at the blue-green state
reached by the atomic traffic switch. -/
theorem c8_traffic_invariant_witness :
    ((⟨Strategy.canary, 2, ⟨95, 5⟩, [5, 1], true⟩ : RolloutState).split.stable +
       (⟨Strategy.canary, 2, ⟨95, 5⟩, [5, 1], true⟩ : RolloutState).split.canary = 100 ∧
     ((⟨Strategy.canary, 2, ⟨95, 5⟩, [5, 1], true⟩ : RolloutState).history.filter
       (fun q => q != 0)).reverse <+: [1, 5, 25, 100]) ∧
    (⟨Strategy.blueGreen, 1, ⟨0, 100⟩, [100], true⟩ : RolloutState).split.stable +
      (⟨Strategy.blueGreen, 1, ⟨0, 100⟩, [100], true⟩ : RolloutState).split.canary = 100 := by
  have h1 : RolloutStep [1, 5, 25, 100] (rolloutInit Strategy.canary)
      ⟨Strategy.canary, 1, ⟨99, 1⟩, [1], true⟩ :=
    RolloutStep.canaryAdvance (rolloutInit Strategy.canary) rfl (by decide) rfl
  have h2 : RolloutStep [1, 5, 25, 100] ⟨Strategy.canary, 1, ⟨99, 1⟩, [1], true⟩
      ⟨Strategy.canary, 2, ⟨95, 5⟩, [5, 1], true⟩ :=
    RolloutStep.canaryAdvance ⟨Strategy.canary, 1, ⟨99, 1⟩, [1], true⟩ rfl (by decide) rfl
  have hr : RolloutReachable [1, 5, 25, 100] ⟨Strategy.canary, 2, ⟨95, 5⟩, [5, 1], true⟩ :=
    RolloutReachable.step _ _
      (RolloutReachable.step _ _ (RolloutReachable.init Strategy.canary) h1) h2
  have hbg : RolloutReachable [1, 5, 25, 100] ⟨Strategy.blueGreen, 1, ⟨0, 100⟩, [100], true⟩ :=
    RolloutReachable.step _ _ (RolloutReachable.init Strategy.blueGreen)
      (RolloutStep.switchTraffic (rolloutInit Strategy.blueGreen) rfl rfl rfl)
  have hc := c8_traffic_invariant [1, 5, 25, 100] _ (by decide) hr
  have hb := c8_traffic_invariant [1, 5, 25, 100] _ (by decide) hbg
  exact ⟨⟨hc.1, hc.2 rfl⟩, hb.1⟩
